import Mathlib

/-!
# Verification of the udev-trigger-zfs-autobackup core

Shallow embedding of the event-driven backup orchestration engine of the
`udev-trigger-zfs-autobackup` repository (latest monitor/trigger variant,
`trigger.py`, plus the display logic of the older `config_reader.py` and
`monitor.py` variants), together with theorems settling the frozen claims
about the spec.

External collaborators (child-process execution and the in-process backup
tool) are modelled as an environment of pure functions: `runCommand` maps a
command line and optional stdin text to a completed-process record, and
`autobackup` maps an argument list to either a normal return (number of
failed datasets plus captured stdout/stderr) or a `SystemExit` escape with
the output captured up to that point.
-/

/-- Result of `subprocess.run(..., text=True, stdout=PIPE, stderr=PIPE)`
as used by `run_command` in `trigger.py`. -/
structure CompletedProcess where
  returncode : Int
  stdout : String
  stderr : String
deriving DecidableEq

/-- Behaviour of one invocation of the external `ZfsAutobackup(args).run()`
call: either it returns the number of failed datasets, or it raises
`SystemExit`; in both cases the stdout/stderr text written before the
return or escape is recorded. -/
inductive ToolResult where
  | normal (failed_datasets : Int) (stdout stderr : String)
  | sysExit (code : Int) (stdout stderr : String)
deriving DecidableEq

/-- The environment: what the operating system and the backup tool do. -/
structure Env where
  runCommand : List String → Option String → CompletedProcess
  autobackup : List String → ToolResult

/-- One externally visible command issued by the pipeline: either a child
process spawned through the Command Runner (`run_command`), or the
in-process backup tool invocation. -/
inductive Step where
  | cmd (argv : List String) (input : Option String)
  | tool (args : List String)
deriving DecidableEq

/-- Pool configuration as consumed by `trigger.py`
(`import_decrypt_backup_export`): pool name, backup tool argument list and
optional passphrase. -/
structure PoolConfig where
  name : String
  autobackup_parameters : List String
  passphrase : Option String
deriving DecidableEq

/-- Python truthiness of an optional string (`None` and `""` are falsy),
used by `if pool_config.passphrase:`. -/
def optTruthy : Option String → Bool
  | none => false
  | some s => s != ""

/-- `run_zfs_autobackup` in `trigger.py`: runs the tool with output
capture; `success` starts out `False` and becomes `failed_datasets == 0`
unless the tool raised `SystemExit`, in which case the exception is caught
and the flag stays `False`; the captured stdout/stderr are returned in
either case. -/
def run_zfs_autobackup (env : Env) (args : List String) : Bool × String × String :=
  match env.autobackup args with
  | ToolResult.normal failed_datasets out err => (failed_datasets == 0, out, err)
  | ToolResult.sysExit _ out err => (false, out, err)

/-- `import_decrypt_backup_export` in `trigger.py`, instrumented with the
list of issued commands (the trace) next to the returned
`(success, message)` pair. Mirrors the source line by
line: import, optional decrypt, backup, set-readonly, export, each
short-circuiting on failure with the source's exact message strings. -/
def import_decrypt_backup_export (env : Env) (pc : PoolConfig) : (Bool × String) × List Step :=
  let importCmd : List String := ["zpool", "import", pc.name, "-N"]
  let r1 := env.runCommand importCmd none
  let t1 : List Step := [Step.cmd importCmd none]
  if r1.returncode != 0 then
    ((false, "Failed to import pool. Backup not yet run.\n" ++ r1.stderr), t1)
  else
    let decryptCmd : List String := ["zfs", "load-key", pc.name]
    let t2 : List Step :=
      if optTruthy pc.passphrase then t1 ++ [Step.cmd decryptCmd pc.passphrase] else t1
    let decryptFailed : Option CompletedProcess :=
      if optTruthy pc.passphrase then
        let r2 := env.runCommand decryptCmd pc.passphrase
        if r2.returncode != 0 then some r2 else none
      else none
    match decryptFailed with
    | some r2 => ((false, "Failed to decrypt pool. Backup not yet run.\n" ++ r2.stderr), t2)
    | none =>
      let b := run_zfs_autobackup env pc.autobackup_parameters
      let success := b.1
      let stdout := b.2.1
      let stderr := b.2.2
      let t3 := t2 ++ [Step.tool pc.autobackup_parameters]
      if !success || stderr != "" then
        ((false, "ZFS autobackup error! Disk will not be exported automatically.\n" ++ stderr ++ stdout), t3)
      else
        let roCmd : List String := ["zfs", "set", "readonly=on", pc.name]
        let r3 := env.runCommand roCmd none
        let t4 := t3 ++ [Step.cmd roCmd none]
        if r3.returncode != 0 then
          ((false, "Failed to set pool readonly. Backup succeeded, but disk will not be exported automatically.\n" ++ r3.stderr), t4)
        else
          let exportCmd : List String := ["zpool", "export", pc.name]
          let r4 := env.runCommand exportCmd none
          let t5 := t4 ++ [Step.cmd exportCmd none]
          if r4.returncode != 0 then
            ((false, "Failed to export pool. Backup succeeded, but disk will not be exported automatically.\n" ++ r4.stderr), t5)
          else
            ((true, stdout), t5)

/-- `leadsWith needle hay`: the character list `needle` is an initial
segment of `hay`. -/
def leadsWith : List Char → List Char → Bool
  | [], _ => true
  | _ :: _, [] => false
  | c :: cs, d :: ds => c == d && leadsWith cs ds

/-- `occursIn needle hay`: `needle` occurs contiguously somewhere in
`hay`. -/
def occursIn (needle : List Char) : List Char → Bool
  | [] => leadsWith needle []
  | d :: ds => leadsWith needle (d :: ds) || occursIn needle ds

/-- A substring test: `strIncludes hay needle` holds when `needle` occurs
contiguously in `hay` (on the underlying character lists). Used to
formalise "the message includes the captured text". -/
def strIncludes (hay needle : String) : Bool :=
  occursIn needle.data hay.data

/-- Application configuration as consumed by `trigger.py`: mapping from
device label to `PoolConfig` (association list with the dict's key
uniqueness irrelevant to the claims), plus the audible-alert flag.
Notification settings live behind the Notifier boundary and are not
modelled. -/
structure AppConfig where
  pools : List (String × PoolConfig)
  beep : Bool
deriving DecidableEq

/-- Dictionary lookup `self.config.pools[label]` / `.get(label)`. -/
def lookupPool (config : AppConfig) (label : String) : Option PoolConfig :=
  (config.pools.find? (fun kv => kv.1 == label)).map (fun kv => kv.2)

/-- The set of configured labels (`self.config.pools` keys). -/
def monKeys (config : AppConfig) : List String :=
  config.pools.map (fun kv => kv.1)

/-- `UdevAutobackupMonitor._device_callback`: enqueues `(action, label)`
iff the device is a `zfs_member`, carries a truthy label that is a key of
the pool mapping, and the action is `add` or `remove`; otherwise enqueues
nothing. -/
def device_callback (config : AppConfig) (fs_type fs_label : Option String) (action : String) :
    List (String × String) :=
  match fs_type, fs_label with
  | some t, some l =>
    if t == "zfs_member" && l != "" && (monKeys config).contains l
        && (action == "add" || action == "remove") then
      [(action, l)]
    else []
  | _, _ => []

/-- Externally visible effects of one monitor-loop iteration: pipeline
invocations (by label), commands issued, calls to the audible alert
`self.beep()`, and `(subject, body)` pairs handed to the Notifier
(`self._send_email`). -/
structure StepOut where
  pipelineRuns : List String
  commands : List Step
  beeps : Nat
  emails : List (String × String)
deriving DecidableEq

/-- No effect. -/
def noOut : StepOut := ⟨[], [], 0, []⟩

/-- Concatenation of effects of consecutive iterations. -/
def StepOut.append (a b : StepOut) : StepOut :=
  ⟨a.pipelineRuns ++ b.pipelineRuns, a.commands ++ b.commands,
   a.beeps + b.beeps, a.emails ++ b.emails⟩

/-- `UdevAutobackupMonitor._do_backup`: unknown label → "Unrecognized
disk" notification and nothing else; known label → one pipeline run whose
outcome is forwarded to the Notifier with the source's exact subject and
body strings. -/
def do_backup (env : Env) (config : AppConfig) (label : String) : StepOut :=
  match lookupPool config label with
  | none =>
    { pipelineRuns := [], commands := [], beeps := 0,
      emails := [("Unrecognized disk",
        "Plugged in disk " ++ label ++ " that is not matching any configuration. You can unplug it again safely.")] }
  | some pc =>
    let r := import_decrypt_backup_export env pc
    { pipelineRuns := [label], commands := r.2, beeps := 0,
      emails := [if r.1.1 then
          ("Backup of " ++ label ++ " completed",
           "Backup finished. You can safely unplug the disk " ++ label ++ " now.\n\n" ++ r.1.2)
        else
          ("Error backing up " ++ label, r.1.2)] }

/-- State owned by `_wait_for_udev_triggers`: the pending device-event
queue and the finished-devices set (as a list with set semantics). -/
structure MonState where
  queue : List (String × String)
  finished : List String
deriving DecidableEq

/-- Initial state: empty queue, empty finished-set. -/
def initState : MonState := ⟨[], []⟩

/-- `FINISHED_BEEP_INTERVAL = 10  # seconds`. -/
def FINISHED_BEEP_INTERVAL : Nat := 10

/-- The timeout passed to `self.device_events.get(block=True, timeout=...)`:
`FINISHED_BEEP_INTERVAL if finished_devices else None`. -/
def dequeueTimeout (finished : List String) : Option Nat :=
  if finished.isEmpty then none else some FINISHED_BEEP_INTERVAL

/-- One unit of interaction with the monitor loop: a udev event delivered
to the callback thread, or one pass of the consuming loop (a dequeue
attempt: it consumes the head event if one is pending, otherwise it can
only complete by the timeout elapsing). -/
inductive MonInput where
  | udev (fs_type fs_label : Option String) (action : String)
  | tick
deriving DecidableEq

/-- One step of the monitor: a udev input runs `_device_callback` and
appends its events to the queue; a tick runs one iteration of the
consuming loop of `_wait_for_udev_triggers`. With an empty queue, the
`get` call raises `queue.Empty` only when a timeout was set (finished-set
non-empty), upon which the loop beeps and continues without consuming;
with no timeout it blocks, so no iteration completes and the state is
unchanged with no effect. -/
def monStep (env : Env) (config : AppConfig) (s : MonState) : MonInput → MonState × StepOut
  | MonInput.udev t l a => ({ s with queue := s.queue ++ device_callback config t l a }, noOut)
  | MonInput.tick =>
    match s.queue with
    | [] =>
      match dequeueTimeout s.finished with
      | none => (s, noOut)
      | some _ => (s, { noOut with beeps := 1 })
    | (a, l) :: rest =>
      if a == "add" then
        let eff := do_backup env config l
        ({ queue := rest, finished := s.finished.insert l },
         { eff with beeps := eff.beeps + 1 })
      else if a == "remove" then
        ({ queue := rest, finished := s.finished.filter (fun x => x != l) }, noOut)
      else
        ({ s with queue := rest }, noOut)

/-- Iterated `monStep` over a sequence of inputs, accumulating effects. -/
def monRun (env : Env) (config : AppConfig) : List MonInput → MonState → MonState × StepOut
  | [], s => (s, noOut)
  | i :: is, s =>
    let r := monStep env config s i
    let r2 := monRun env config is r.1
    (r2.1, StepOut.append r.2 r2.2)

/-- `SecretStr` of `monitor.py`: a string subclass that hides its value. -/
structure SecretStr where
  value : String
deriving DecidableEq

/-- `SecretStr.__str__`: always the fixed mask, whatever the contents. -/
def SecretStr.display (_ : SecretStr) : String := "*****"

/-- `SecretStr.__repr__`: defined as `self.__str__()`. -/
def SecretStr.displayRepr (s : SecretStr) : String := s.display

/-- `PoolConfig` of `config_reader.py`: `pool_name`,
`autobackup_parameters`, and `passphrase` (optional, default `""`). -/
structure CRPoolConfig where
  pool_name : String
  autobackup_parameters : List String
  passphrase : Option String
deriving DecidableEq

/-- `LoggingConfig` of `config_reader.py`. -/
structure CRLoggingConfig where
  level : String
  logfile_path : String
deriving DecidableEq

/-- `EmailConfig` of `config_reader.py`. -/
structure CREmailConfig where
  fromaddr : String
  recipients : List String
  send_autobackup_output : Bool
deriving DecidableEq

/-- `AppConfig` of `config_reader.py`: optional logging section, pool
mapping, optional email section. -/
structure CRAppConfig where
  logging : Option CRLoggingConfig
  pools : List (String × CRPoolConfig)
  email : Option CREmailConfig
deriving DecidableEq

/-- JSON string escaping as performed by `json.dumps` for the characters
relevant here (quote, backslash and the common control characters; other
characters are emitted verbatim, which matches `json.dumps` on the ASCII
text these configs hold modulo `\\uXXXX` escapes for exotic controls). -/
def jsonEscapeChar (c : Char) : String :=
  if c == '"' then "\\\""
  else if c == '\\' then "\\\\"
  else if c == '\n' then "\\n"
  else if c == '\t' then "\\t"
  else if c == '\r' then "\\r"
  else String.singleton c

/-- Escape a whole string. -/
def jsonEscape (s : String) : String :=
  String.join (s.data.map jsonEscapeChar)

/-- A JSON string literal as emitted by `json.dumps`. -/
def jsonStr (s : String) : String :=
  "\"" ++ jsonEscape s ++ "\""

/-- A JSON optional-string value (`None` serialises to `null`). -/
def jsonOptStr : Option String -> String
  | none => "null"
  | some s => jsonStr s

/-- A JSON boolean as emitted by `json.dumps`. -/
def jsonBool (b : Bool) : String :=
  if b then "true" else "false"

/-- `n` spaces, for `json.dumps(..., indent=2)` indentation. -/
def pyIndent (n : Nat) : String :=
  String.mk (List.replicate n ' ')

/-- A list of strings as emitted by `json.dumps(xs, indent=2)` at the
given current indentation depth: `[]` when empty, otherwise one element
per line at two more spaces of indentation. -/
def jsonStrList (ind : Nat) (xs : List String) : String :=
  match xs with
  | [] => "[]"
  | _ :: _ =>
    "[\n"
      ++ String.intercalate ",\n" (xs.map (fun s => pyIndent (ind + 2) ++ jsonStr s))
      ++ "\n" ++ pyIndent ind ++ "]"

/-- The `asdict` image of a `config_reader.PoolConfig` as emitted by
`json.dumps(..., indent=2)` at the given depth, with the passphrase field
already replaced by whatever masking the caller applied. -/
def crPoolBodyStr (ind : Nat) (pc : CRPoolConfig) (passphraseField : Option String) : String :=
  "\x7b\n"
    ++ pyIndent (ind + 2) ++ "\"pool_name\": " ++ jsonStr pc.pool_name ++ ",\n"
    ++ pyIndent (ind + 2) ++ "\"autobackup_parameters\": "
      ++ jsonStrList (ind + 2) pc.autobackup_parameters ++ ",\n"
    ++ pyIndent (ind + 2) ++ "\"passphrase\": " ++ jsonOptStr passphraseField ++ "\n"
    ++ pyIndent ind ++ "\x7d"

/-- `config_reader.PoolConfig.__str__`: `json.dumps(asdict(self), indent=2)`
after replacing the passphrase by `'*****' if self.passphrase else
self.passphrase` (so only a truthy passphrase is masked). -/
def crPoolConfigStr (pc : CRPoolConfig) : String :=
  crPoolBodyStr 0 pc (if optTruthy pc.passphrase then some "*****" else pc.passphrase)

/-- The `asdict` image of the optional `logging` section. -/
def crLoggingStr (ind : Nat) : Option CRLoggingConfig -> String
  | none => "null"
  | some lg =>
    "\x7b\n"
      ++ pyIndent (ind + 2) ++ "\"level\": " ++ jsonStr lg.level ++ ",\n"
      ++ pyIndent (ind + 2) ++ "\"logfile_path\": " ++ jsonStr lg.logfile_path ++ "\n"
      ++ pyIndent ind ++ "\x7d"

/-- The `asdict` image of the optional `email` section. -/
def crEmailStr (ind : Nat) : Option CREmailConfig -> String
  | none => "null"
  | some em =>
    "\x7b\n"
      ++ pyIndent (ind + 2) ++ "\"fromaddr\": " ++ jsonStr em.fromaddr ++ ",\n"
      ++ pyIndent (ind + 2) ++ "\"recipients\": " ++ jsonStrList (ind + 2) em.recipients ++ ",\n"
      ++ pyIndent (ind + 2) ++ "\"send_autobackup_output\": "
        ++ jsonBool em.send_autobackup_output ++ "\n"
      ++ pyIndent ind ++ "\x7d"

/-- A JSON object as emitted by `json.dumps(..., indent=2)` from
pre-rendered `"key": value` entry strings. -/
def jsonObjBody (ind : Nat) (entries : List String) : String :=
  match entries with
  | [] => "\x7b\x7d"
  | _ :: _ =>
    "\x7b\n" ++ String.intercalate ",\n" entries ++ "\n" ++ pyIndent ind ++ "\x7d"

/-- One entry of the `pools` dictionary, with a truthy passphrase replaced
by `'***'` as `AppConfig.__str__` does. -/
def crPoolEntryStr (ind : Nat) (kv : String × CRPoolConfig) : String :=
  pyIndent (ind + 2) ++ jsonStr kv.1 ++ ": "
    ++ crPoolBodyStr (ind + 2) kv.2
        (if optTruthy kv.2.passphrase then some "***" else kv.2.passphrase)

/-- The `pools` dictionary as emitted by `json.dumps(..., indent=2)`, with
every truthy passphrase replaced by `'***'` as `AppConfig.__str__` does. -/
def crPoolsStr (ind : Nat) (pools : List (String × CRPoolConfig)) : String :=
  jsonObjBody ind (pools.map (crPoolEntryStr ind))

/-- `config_reader.AppConfig.__str__`: `json.dumps(asdict(self), indent=2)`
after replacing every truthy pool passphrase by `'***'` (falsy passphrases
are left as they are; `logging` and `email` render unmodified). -/
def crAppConfigStr (c : CRAppConfig) : String :=
  "\x7b\n"
    ++ pyIndent 2 ++ "\"logging\": " ++ crLoggingStr 2 c.logging ++ ",\n"
    ++ pyIndent 2 ++ "\"pools\": " ++ crPoolsStr 2 c.pools ++ ",\n"
    ++ pyIndent 2 ++ "\"email\": " ++ crEmailStr 2 c.email ++ "\n"
    ++ "\x7d"

/-! ## Concrete instances used by witnesses and counterexamples -/

/-- An environment in which every command succeeds silently and the backup
tool succeeds with stdout `"ok"`. -/
def envOk : Env :=
  { runCommand := fun _ _ => ⟨0, "", ""⟩,
    autobackup := fun _ => ToolResult.normal 0 "ok" "" }

/-- An environment in which only the set-readonly command fails. -/
def envRoFail : Env :=
  { runCommand := fun argv _ =>
      if argv = ["zfs", "set", "readonly=on", "tank"] then ⟨1, "", "ROFAIL"⟩
      else ⟨0, "", ""⟩,
    autobackup := fun _ => ToolResult.normal 0 "BACKUPOUT" "" }

/-- An environment in which the import command fails. -/
def envImportFail : Env :=
  { runCommand := fun argv _ =>
      if argv = ["zpool", "import", "tank", "-N"] then ⟨1, "", "IMPFAIL"⟩
      else ⟨0, "", ""⟩,
    autobackup := fun _ => ToolResult.normal 0 "ok" "" }

/-- An environment in which the backup tool fails with stderr text. -/
def envBackupFail : Env :=
  { runCommand := fun _ _ => ⟨0, "", ""⟩,
    autobackup := fun _ => ToolResult.normal 3 "partial" "disk full" }

/-- An environment in which the backup tool raises `SystemExit` after
writing some output. -/
def envSysExit : Env :=
  { runCommand := fun _ _ => ⟨0, "", ""⟩,
    autobackup := fun _ => ToolResult.sysExit 255 "partial out" "usage" }

/-- A pool with a configured passphrase. -/
def pcPass : PoolConfig := ⟨"tank", ["-v"], some "pw"⟩

/-- A pool without a passphrase. -/
def pcPlain : PoolConfig := ⟨"tank", ["-v"], none⟩

/-- A one-pool application configuration recognising only `TANK1`. -/
def cfgTank : AppConfig := ⟨[("TANK1", ⟨"TANK1", ["-v"], none⟩)], true⟩

/-! ## Claim theorems -/

/-- C1: for every `PoolConfig`, when every issued command succeeds and the
backup tool reports success (zero failed datasets) with empty stderr, the
pipeline `import_decrypt_backup_export` issues exactly five commands (or
four when no passphrase is configured) in the fixed order import,
[decrypt], backup, readonly, export, and returns a success outcome whose
message is the backup tool's captured stdout. -/
theorem C1_success_order (env : Env) (pc : PoolConfig) (out : String)
    (hcmd : ∀ argv inp, (env.runCommand argv inp).returncode = 0)
    (htool : env.autobackup pc.autobackup_parameters = ToolResult.normal 0 out "") :
    import_decrypt_backup_export env pc =
      ((true, out),
        [Step.cmd ["zpool", "import", pc.name, "-N"] none]
          ++ (if optTruthy pc.passphrase then
                [Step.cmd ["zfs", "load-key", pc.name] pc.passphrase]
              else [])
          ++ [Step.tool pc.autobackup_parameters,
              Step.cmd ["zfs", "set", "readonly=on", pc.name] none,
              Step.cmd ["zpool", "export", pc.name] none])
      ∧ (import_decrypt_backup_export env pc).2.length
          = (if optTruthy pc.passphrase then 5 else 4) := by
  cases hp : optTruthy pc.passphrase <;>
    simp [import_decrypt_backup_export, run_zfs_autobackup, htool, hcmd, hp]

/-- Witness for C1: on the all-success environment with a passphrase, the
pipeline issues the five commands in order and returns the tool stdout. -/
theorem C1_success_order_witness :
    import_decrypt_backup_export envOk pcPass =
      ((true, "ok"),
        [Step.cmd ["zpool", "import", "tank", "-N"] none,
         Step.cmd ["zfs", "load-key", "tank"] (some "pw"),
         Step.tool ["-v"],
         Step.cmd ["zfs", "set", "readonly=on", "tank"] none,
         Step.cmd ["zpool", "export", "tank"] none])
      ∧ (import_decrypt_backup_export envOk pcPass).2.length = 5 := by
  have h := C1_success_order envOk pcPass "ok" (fun _ _ => rfl) rfl
  simpa [pcPass, optTruthy] using h

/-- C4: for every `PoolConfig`, if the import command returns a non-zero
status, the pipeline issues no further command (its trace is exactly the
single import command) and returns a failure outcome whose message states
the backup was not run and carries the import command's captured stderr. -/
theorem C4_import_failure (env : Env) (pc : PoolConfig)
    (himp : (env.runCommand ["zpool", "import", pc.name, "-N"] none).returncode ≠ 0) :
    import_decrypt_backup_export env pc =
      ((false, "Failed to import pool. Backup not yet run.\n"
          ++ (env.runCommand ["zpool", "import", pc.name, "-N"] none).stderr),
        [Step.cmd ["zpool", "import", pc.name, "-N"] none]) := by
  simp [import_decrypt_backup_export, himp]

/-- Witness for C4: with a failing import, the pipeline stops after
the import command and reports its stderr. -/
theorem C4_import_failure_witness :
    import_decrypt_backup_export envImportFail pcPass =
      ((false, "Failed to import pool. Backup not yet run.\nIMPFAIL"),
        [Step.cmd ["zpool", "import", "tank", "-N"] none]) := by
  have h := C4_import_failure envImportFail pcPass (by decide)
  simpa [envImportFail, pcPass] using h

/-- C2: for every `PoolConfig`, if the backup step returns a false success
flag or any non-empty stderr text (after a successful import and, when a
passphrase is configured, a successful decrypt), the pipeline's trace ends
with the backup tool invocation — the readonly and export commands are
never issued — and the outcome is a failure whose message states the disk
will not be exported automatically and carries the captured error text
(stderr followed by stdout). -/
theorem C2_backup_failure_no_export (env : Env) (pc : PoolConfig)
    (success : Bool) (out err : String)
    (himp : (env.runCommand ["zpool", "import", pc.name, "-N"] none).returncode = 0)
    (hdec : optTruthy pc.passphrase = true →
      (env.runCommand ["zfs", "load-key", pc.name] pc.passphrase).returncode = 0)
    (htool : run_zfs_autobackup env pc.autobackup_parameters = (success, out, err))
    (hfail : success = false ∨ err ≠ "") :
    import_decrypt_backup_export env pc =
      ((false, "ZFS autobackup error! Disk will not be exported automatically.\n" ++ err ++ out),
        [Step.cmd ["zpool", "import", pc.name, "-N"] none]
          ++ (if optTruthy pc.passphrase then
                [Step.cmd ["zfs", "load-key", pc.name] pc.passphrase]
              else [])
          ++ [Step.tool pc.autobackup_parameters])
      ∧ Step.cmd ["zfs", "set", "readonly=on", pc.name] none
          ∉ (import_decrypt_backup_export env pc).2
      ∧ Step.cmd ["zpool", "export", pc.name] none
          ∉ (import_decrypt_backup_export env pc).2 := by
  have hmain : import_decrypt_backup_export env pc =
      ((false, "ZFS autobackup error! Disk will not be exported automatically.\n" ++ err ++ out),
        [Step.cmd ["zpool", "import", pc.name, "-N"] none]
          ++ (if optTruthy pc.passphrase then
                [Step.cmd ["zfs", "load-key", pc.name] pc.passphrase]
              else [])
          ++ [Step.tool pc.autobackup_parameters]) := by
    cases hp : optTruthy pc.passphrase <;>
      rcases hfail with hf | hf <;>
        simp_all [import_decrypt_backup_export, hdec]
  refine ⟨hmain, ?_, ?_⟩ <;>
    · rw [hmain]
      cases hp : optTruthy pc.passphrase <;> simp [hp]

/-- Witness for C2: the backup tool fails with stderr `"disk full"`; the
trace stops at the tool invocation and the message carries the error. -/
theorem C2_backup_failure_no_export_witness :
    import_decrypt_backup_export envBackupFail pcPlain =
      ((false, "ZFS autobackup error! Disk will not be exported automatically.\ndisk fullpartial"),
        [Step.cmd ["zpool", "import", "tank", "-N"] none, Step.tool ["-v"]])
      ∧ Step.cmd ["zfs", "set", "readonly=on", "tank"] none
          ∉ (import_decrypt_backup_export envBackupFail pcPlain).2
      ∧ Step.cmd ["zpool", "export", "tank"] none
          ∉ (import_decrypt_backup_export envBackupFail pcPlain).2 := by
  have h := C2_backup_failure_no_export envBackupFail pcPlain false "partial" "disk full"
    rfl (fun hp => by simp [pcPlain, optTruthy] at hp) rfl (Or.inl rfl)
  simpa [pcPlain, optTruthy] using h

/-- Counterexample to C3 as stated: backup succeeds with stdout
`"BACKUPOUT"`, the set-readonly command fails with stderr `"ROFAIL"`; the
pipeline does return a failure outcome without issuing export, but its
message is the fixed readonly-failure text plus the readonly stderr only —
the backup step's captured stdout `"BACKUPOUT"` does not occur in it. -/
theorem C3_counterexample :
    run_zfs_autobackup envRoFail pcPlain.autobackup_parameters = (true, "BACKUPOUT", "")
    ∧ (envRoFail.runCommand ["zfs", "set", "readonly=on", "tank"] none).returncode = 1
    ∧ import_decrypt_backup_export envRoFail pcPlain =
        ((false, "Failed to set pool readonly. Backup succeeded, but disk will not be exported automatically.\nROFAIL"),
          [Step.cmd ["zpool", "import", "tank", "-N"] none,
           Step.tool ["-v"],
           Step.cmd ["zfs", "set", "readonly=on", "tank"] none])
    ∧ strIncludes (import_decrypt_backup_export envRoFail pcPlain).1.2 "BACKUPOUT" = false := by
  decide

/-- C3 amended: if the backup step succeeded (true success flag, empty
stderr) but the set-readonly command returns a non-zero status, the
pipeline never issues the export command and returns a failure outcome
whose message is the fixed readonly-failure text followed by the readonly
command's captured stderr; the backup step's captured stdout is not part
of the message. -/
theorem C3_readonly_failure (env : Env) (pc : PoolConfig) (out : String)
    (himp : (env.runCommand ["zpool", "import", pc.name, "-N"] none).returncode = 0)
    (hdec : optTruthy pc.passphrase = true →
      (env.runCommand ["zfs", "load-key", pc.name] pc.passphrase).returncode = 0)
    (htool : run_zfs_autobackup env pc.autobackup_parameters = (true, out, ""))
    (hro : (env.runCommand ["zfs", "set", "readonly=on", pc.name] none).returncode ≠ 0) :
    import_decrypt_backup_export env pc =
      ((false, "Failed to set pool readonly. Backup succeeded, but disk will not be exported automatically.\n"
          ++ (env.runCommand ["zfs", "set", "readonly=on", pc.name] none).stderr),
        [Step.cmd ["zpool", "import", pc.name, "-N"] none]
          ++ (if optTruthy pc.passphrase then
                [Step.cmd ["zfs", "load-key", pc.name] pc.passphrase]
              else [])
          ++ [Step.tool pc.autobackup_parameters,
              Step.cmd ["zfs", "set", "readonly=on", pc.name] none])
      ∧ Step.cmd ["zpool", "export", pc.name] none
          ∉ (import_decrypt_backup_export env pc).2 := by
  have hmain : import_decrypt_backup_export env pc =
      ((false, "Failed to set pool readonly. Backup succeeded, but disk will not be exported automatically.\n"
          ++ (env.runCommand ["zfs", "set", "readonly=on", pc.name] none).stderr),
        [Step.cmd ["zpool", "import", pc.name, "-N"] none]
          ++ (if optTruthy pc.passphrase then
                [Step.cmd ["zfs", "load-key", pc.name] pc.passphrase]
              else [])
          ++ [Step.tool pc.autobackup_parameters,
              Step.cmd ["zfs", "set", "readonly=on", pc.name] none]) := by
    cases hp : optTruthy pc.passphrase <;>
      simp_all [import_decrypt_backup_export, hdec]
  refine ⟨hmain, ?_⟩
  rw [hmain]
  cases hp : optTruthy pc.passphrase <;> simp [hp]

/-- Witness for the amended C3, on the concrete readonly-failure
environment. -/
theorem C3_readonly_failure_witness :
    import_decrypt_backup_export envRoFail pcPlain =
      ((false, "Failed to set pool readonly. Backup succeeded, but disk will not be exported automatically.\nROFAIL"),
        [Step.cmd ["zpool", "import", "tank", "-N"] none,
         Step.tool ["-v"],
         Step.cmd ["zfs", "set", "readonly=on", "tank"] none])
      ∧ Step.cmd ["zpool", "export", "tank"] none
          ∉ (import_decrypt_backup_export envRoFail pcPlain).2 := by
  have h := C3_readonly_failure envRoFail pcPlain "BACKUPOUT" (by decide)
    (fun hp => by simp [pcPlain, optTruthy] at hp) (by decide) (by decide)
  simpa [pcPlain, optTruthy, envRoFail] using h

/-- C10: for every argument list, if the invoked backup tool terminates
via `SystemExit`, `run_zfs_autobackup` (trigger variant) catches it and
returns a false success flag together with the stdout and stderr text
captured up to that point; being a total function of the environment, it
neither propagates the exception nor terminates the monitor. -/
theorem C10_sysexit_caught (env : Env) (args : List String)
    (code : Int) (out err : String)
    (h : env.autobackup args = ToolResult.sysExit code out err) :
    run_zfs_autobackup env args = (false, out, err) := by
  simp [run_zfs_autobackup, h]

/-- Witness for C10: the tool exits with code 255 after writing partial
output; the wrapper returns `false` with the captured text. -/
theorem C10_sysexit_caught_witness :
    run_zfs_autobackup envSysExit ["-v"] = (false, "partial out", "usage") :=
  C10_sysexit_caught envSysExit ["-v"] 255 "partial out" "usage" rfl

/-- Counterexample to C5 as stated: with only `TANK1` configured, a udev
Added event for the unrecognized label `UNKNOWN` (a `zfs_member` device)
is filtered out by `_device_callback`, so the monitor performs nothing at
all: in particular no "Unrecognized disk" notification is handed to the
Notifier, contradicting the claim that such an event results in one. (The
claim's remaining parts hold: no pipeline run and no Command Runner
invocation.) -/
theorem C5_counterexample :
    monRun envOk cfgTank
        [MonInput.udev (some "zfs_member") (some "UNKNOWN") "add", MonInput.tick]
        initState
      = (initState, noOut)
    ∧ (monRun envOk cfgTank
        [MonInput.udev (some "zfs_member") (some "UNKNOWN") "add", MonInput.tick]
        initState).2.emails = [] := by
  decide

/-- C5 amended: for every label not present in the pool mapping, an Added
(or any) device event for it is dropped by the device callback — nothing
is enqueued and the monitor state and effects are unchanged — so there is
no notification, no pipeline run and no Command Runner invocation; the
"unrecognized disk" notification path of `_do_backup` is unreachable from
device events. -/
theorem C5_unknown_label_dropped (env : Env) (config : AppConfig) (s : MonState)
    (fs_type : Option String) (l action : String)
    (h : (monKeys config).contains l = false) :
    device_callback config fs_type (some l) action = []
    ∧ monStep env config s (MonInput.udev fs_type (some l) action) = (s, noOut) := by
  have hmem : l ∉ monKeys config := by simpa using h
  have hcb : device_callback config fs_type (some l) action = [] := by
    cases fs_type <;> simp [device_callback, hmem]
  refine ⟨hcb, ?_⟩
  simp [monStep, hcb]

/-- Witness for the amended C5: the `UNKNOWN` event is dropped on the
concrete configuration. -/
theorem C5_unknown_label_dropped_witness :
    device_callback cfgTank (some "zfs_member") (some "UNKNOWN") "add" = []
    ∧ monStep envOk cfgTank initState
        (MonInput.udev (some "zfs_member") (some "UNKNOWN") "add") = (initState, noOut) :=
  C5_unknown_label_dropped envOk cfgTank initState (some "zfs_member") "UNKNOWN" "add" (by decide)

/-- Any event the device callback enqueues carries a configured label. -/
theorem device_callback_label_mem (config : AppConfig) (t l : Option String) (a : String)
    (p : String × String) (hp : p ∈ device_callback config t l a) : p.2 ∈ monKeys config := by
  cases t with
  | none => simp [device_callback] at hp
  | some tv =>
    cases l with
    | none => simp [device_callback] at hp
    | some lv =>
      simp only [device_callback] at hp
      by_cases hc : (tv == "zfs_member" && lv != "" && (monKeys config).contains lv
          && (a == "add" || a == "remove")) = true
      · rw [if_pos hc] at hp
        simp only [List.mem_singleton] at hp
        subst hp
        simp only [Bool.and_eq_true] at hc
        simpa using hc.1.2
      · rw [if_neg hc] at hp
        simp at hp

/-- A successful pool lookup means the label is a configured key. -/
theorem lookupPool_some_mem (config : AppConfig) (l : String) (pc : PoolConfig)
    (h : lookupPool config l = some pc) : l ∈ monKeys config := by
  unfold lookupPool at h
  rcases Option.map_eq_some'.mp h with ⟨kv, hfind, -⟩
  have hmem := List.mem_of_find?_eq_some hfind
  have hbeq := List.find?_some hfind
  have hkey : kv.1 = l := by simpa using hbeq
  exact List.mem_map.mpr ⟨kv, hmem, hkey⟩

/-- `_do_backup` only ever invokes the pipeline for configured labels. -/
theorem do_backup_runs_mem (env : Env) (config : AppConfig) (label l : String)
    (hl : l ∈ (do_backup env config label).pipelineRuns) : l ∈ monKeys config := by
  unfold do_backup at hl
  cases hcase : lookupPool config label with
  | none => simp [hcase] at hl
  | some pc =>
    simp only [hcase, List.mem_singleton] at hl
    rw [hl]
    exact lookupPool_some_mem config label pc hcase

/-- One monitor step preserves the queue/finished-set invariant and only
runs the pipeline for configured labels. -/
theorem monStep_invariant (env : Env) (config : AppConfig) (s : MonState) (i : MonInput)
    (hq : ∀ p ∈ s.queue, p.2 ∈ monKeys config)
    (hf : ∀ l ∈ s.finished, l ∈ monKeys config) :
    (∀ p ∈ (monStep env config s i).1.queue, p.2 ∈ monKeys config)
    ∧ (∀ l ∈ (monStep env config s i).1.finished, l ∈ monKeys config)
    ∧ (∀ l ∈ (monStep env config s i).2.pipelineRuns, l ∈ monKeys config) := by
  cases i with
  | udev t l a =>
    have hs : monStep env config s (MonInput.udev t l a) =
        ({ s with queue := s.queue ++ device_callback config t l a }, noOut) := rfl
    rw [hs]
    refine ⟨?_, ?_, ?_⟩
    · intro p hp
      rcases List.mem_append.mp hp with hp | hp
      · exact hq p hp
      · exact device_callback_label_mem config t l a p hp
    · exact hf
    · intro x hx
      simp [noOut] at hx
  | tick =>
    cases hqueue : s.queue with
    | nil =>
      cases hto : dequeueTimeout s.finished with
      | none =>
        have hs : monStep env config s MonInput.tick = (s, noOut) := by
          simp [monStep, hqueue, hto]
        rw [hs]
        exact ⟨hq, hf, by intro x hx; simp [noOut] at hx⟩
      | some k =>
        have hs : monStep env config s MonInput.tick = (s, { noOut with beeps := 1 }) := by
          simp [monStep, hqueue, hto]
        rw [hs]
        exact ⟨hq, hf, by intro x hx; simp [noOut] at hx⟩
    | cons hd rest =>
      obtain ⟨a, l⟩ := hd
      have hlmem : l ∈ monKeys config := by
        have := hq (a, l) (by rw [hqueue]; exact List.mem_cons_self _ _)
        simpa using this
      have hrest : ∀ p ∈ rest, p.2 ∈ monKeys config := by
        intro p hp
        exact hq p (by rw [hqueue]; exact List.mem_cons_of_mem _ hp)
      by_cases ha : a = "add"
      · subst ha
        have hs : monStep env config s MonInput.tick =
            ({ queue := rest, finished := s.finished.insert l },
              { do_backup env config l with beeps := (do_backup env config l).beeps + 1 }) := by
          simp [monStep, hqueue]
        rw [hs]
        refine ⟨hrest, ?_, ?_⟩
        · intro x hx
          rcases List.mem_insert_iff.mp hx with rfl | hx
          · exact hlmem
          · exact hf x hx
        · intro x hx
          exact do_backup_runs_mem env config l x hx
      · by_cases hr : a = "remove"
        · subst hr
          have hs : monStep env config s MonInput.tick =
              ({ queue := rest, finished := s.finished.filter (fun x => x != l) }, noOut) := by
            simp [monStep, hqueue]
          rw [hs]
          refine ⟨hrest, ?_, ?_⟩
          · intro x hx
            exact hf x (List.mem_of_mem_filter hx)
          · intro x hx
            simp [noOut] at hx
        · have hs : monStep env config s MonInput.tick =
              ({ s with queue := rest }, noOut) := by
            simp [monStep, hqueue, ha, hr]
          rw [hs]
          refine ⟨hrest, hf, ?_⟩
          intro x hx
          simp [noOut] at hx

/-- Iterating the monitor preserves the invariant and accumulates only
configured pipeline runs. -/
theorem monRun_invariant (env : Env) (config : AppConfig) (inputs : List MonInput) :
    ∀ (s : MonState),
      (∀ p ∈ s.queue, p.2 ∈ monKeys config) →
      (∀ l ∈ s.finished, l ∈ monKeys config) →
      (∀ p ∈ (monRun env config inputs s).1.queue, p.2 ∈ monKeys config)
      ∧ (∀ l ∈ (monRun env config inputs s).1.finished, l ∈ monKeys config)
      ∧ (∀ l ∈ (monRun env config inputs s).2.pipelineRuns, l ∈ monKeys config) := by
  induction inputs with
  | nil =>
    intro s hq hf
    exact ⟨by simpa [monRun] using hq, by simpa [monRun] using hf,
      by simp [monRun, noOut]⟩
  | cons i is ih =>
    intro s hq hf
    have hstep := monStep_invariant env config s i hq hf
    have hrec := ih (monStep env config s i).1 hstep.1 hstep.2.1
    refine ⟨?_, ?_, ?_⟩
    · intro p hp
      exact hrec.1 p (by simpa [monRun] using hp)
    · intro l hl
      exact hrec.2.1 l (by simpa [monRun] using hl)
    · intro l hl
      simp only [monRun, StepOut.append, List.mem_append] at hl
      rcases hl with hl | hl
      · exact hstep.2.2 l hl
      · exact hrec.2.2 l hl

/-- C6: in every state reachable from the initial state (empty queue and
finished-set) over any sequence of device-callback and queue-consumption
events, the finished-set contains only labels of the pool mapping, and the
Backup Pipeline is only ever invoked for labels of the mapping. -/
theorem C6_finished_and_runs_configured (env : Env) (config : AppConfig)
    (inputs : List MonInput) :
    ((monRun env config inputs initState).1.finished.all
        (fun l => (monKeys config).contains l)) = true
    ∧ ((monRun env config inputs initState).2.pipelineRuns.all
        (fun l => (monKeys config).contains l)) = true := by
  have h := monRun_invariant env config inputs initState
    (by simp [initState]) (by simp [initState])
  constructor
  · rw [List.all_eq_true]
    intro x hx
    simpa using h.2.1 x hx
  · rw [List.all_eq_true]
    intro x hx
    simpa using h.2.2 x hx

/-- With an empty queue and a non-empty finished-set, one loop iteration
times out, beeps once and changes nothing. -/
theorem tick_beep (env : Env) (config : AppConfig) (s : MonState)
    (hq : s.queue = []) (hf : s.finished ≠ []) :
    monStep env config s MonInput.tick = (s, { noOut with beeps := 1 }) := by
  obtain ⟨q, f⟩ := s
  simp only at hq
  subst hq
  cases f with
  | nil => exact absurd rfl hf
  | cons a as => simp [monStep, dequeueTimeout]

/-- With an empty queue and an empty finished-set, the dequeue blocks
without timeout: no iteration completes and nothing happens. -/
theorem tick_blocked (env : Env) (config : AppConfig) (s : MonState)
    (hq : s.queue = []) (hf : s.finished = []) :
    monStep env config s MonInput.tick = (s, noOut) := by
  obtain ⟨q, f⟩ := s
  simp only at hq hf
  subst hq
  subst hf
  simp [monStep, dequeueTimeout]

/-- C7: the consuming loop dequeues with no timeout exactly when the
finished-set is empty and with the fixed 10-second timeout
(`FINISHED_BEEP_INTERVAL`) exactly when it is non-empty; on a dequeue
timeout it performs the audible alert and iterates again without consuming
any event or changing state, so over any `n` consecutive timed-out
iterations it re-alerts `n` times while the finished-set is non-empty, and
never alerts once the finished-set is empty. -/
theorem C7_nag_timing (env : Env) (config : AppConfig) (s : MonState) (n : Nat) :
    (s.finished = [] → dequeueTimeout s.finished = none)
    ∧ (s.finished ≠ [] →
        dequeueTimeout s.finished = some FINISHED_BEEP_INTERVAL ∧ FINISHED_BEEP_INTERVAL = 10)
    ∧ (s.queue = [] → s.finished ≠ [] →
        monStep env config s MonInput.tick = (s, { noOut with beeps := 1 })
        ∧ monRun env config (List.replicate n MonInput.tick) s = (s, { noOut with beeps := n }))
    ∧ (s.queue = [] → s.finished = [] →
        monStep env config s MonInput.tick = (s, noOut)
        ∧ monRun env config (List.replicate n MonInput.tick) s = (s, noOut)) := by
  refine ⟨?_, ?_, ?_, ?_⟩
  · intro h
    simp [dequeueTimeout, h]
  · intro h
    cases hfin : s.finished with
    | nil => exact absurd hfin h
    | cons a as => exact ⟨by simp [dequeueTimeout, hfin], rfl⟩
  · intro hq hf
    refine ⟨tick_beep env config s hq hf, ?_⟩
    induction n with
    | zero => simp [monRun, noOut]
    | succ m ih =>
      rw [List.replicate_succ]
      simp only [monRun, tick_beep env config s hq hf, ih]
      simp [StepOut.append, noOut, Nat.add_comm]
  · intro hq hf
    refine ⟨tick_blocked env config s hq hf, ?_⟩
    induction n with
    | zero => simp [monRun]
    | succ m ih =>
      rw [List.replicate_succ]
      simp only [monRun, tick_blocked env config s hq hf, ih]
      simp [StepOut.append, noOut]

/-- Witness for C7: with `TANK1` finished and nothing queued, three
timed-out iterations beep three times and leave the state unchanged. -/
theorem C7_nag_timing_witness :
    dequeueTimeout (MonState.finished ⟨[], ["TANK1"]⟩) = some 10
    ∧ monRun envOk cfgTank (List.replicate 3 MonInput.tick) ⟨[], ["TANK1"]⟩ =
        (⟨[], ["TANK1"]⟩, { noOut with beeps := 3 })
    ∧ dequeueTimeout (MonState.finished ⟨[], []⟩) = none
    ∧ monRun envOk cfgTank (List.replicate 3 MonInput.tick) ⟨[], []⟩ = (⟨[], []⟩, noOut) := by
  have h := C7_nag_timing envOk cfgTank ⟨[], ["TANK1"]⟩ 3
  have h0 := C7_nag_timing envOk cfgTank ⟨[], []⟩ 3
  refine ⟨(h.2.1 (by simp)).1, (h.2.2.1 rfl (by simp)).2, h0.1 rfl, (h0.2.2.2 rfl rfl).2⟩

/-- C8: a Removed event consumed for a label absent from the finished-set
leaves the finished-set and all other monitor state unchanged and produces
no effect; in general the Removed handler is idempotent — consuming the
same Removed event twice yields the same finished-set and effects as
consuming it once. -/
theorem C8_remove_noop_idempotent (env : Env) (config : AppConfig)
    (fin : List String) (rest : List (String × String)) (l : String) :
    (l ∉ fin →
      monStep env config ⟨("remove", l) :: rest, fin⟩ MonInput.tick = (⟨rest, fin⟩, noOut))
    ∧ monStep env config ⟨("remove", l) :: rest, fin⟩ MonInput.tick =
        (⟨rest, fin.filter (fun x => x != l)⟩, noOut)
    ∧ monRun env config [MonInput.tick, MonInput.tick]
          ⟨("remove", l) :: ("remove", l) :: rest, fin⟩ =
        (⟨rest, fin.filter (fun x => x != l)⟩, noOut) := by
  have hstep : ∀ (q : List (String × String)) (f : List String),
      monStep env config ⟨("remove", l) :: q, f⟩ MonInput.tick =
        (⟨q, f.filter (fun x => x != l)⟩, noOut) := by
    intro q f
    simp [monStep]
  have hidem : (fin.filter (fun x => x != l)).filter (fun x => x != l)
      = fin.filter (fun x => x != l) := by
    rw [List.filter_filter]
    congr 1
    funext a
    exact Bool.and_self _
  refine ⟨?_, hstep rest fin, ?_⟩
  · intro hl
    rw [hstep rest fin]
    have : fin.filter (fun x => x != l) = fin := by
      rw [List.filter_eq_self]
      intro a ha
      simp only [bne_iff_ne, ne_eq]
      intro h
      exact hl (h ▸ ha)
    rw [this]
  · simp only [monRun, hstep, hidem]
    simp [StepOut.append, noOut]

/-- Witness for C8: removing `B` when only `A` is finished is a no-op. -/
theorem C8_remove_noop_idempotent_witness :
    monStep envOk cfgTank ⟨[("remove", "B")], ["A"]⟩ MonInput.tick = (⟨[], ["A"]⟩, noOut)
    ∧ monRun envOk cfgTank [MonInput.tick, MonInput.tick]
          ⟨[("remove", "B"), ("remove", "B")], ["A"]⟩ =
        (⟨[], ["A"].filter (fun x => x != "B")⟩, noOut) := by
  have h := C8_remove_noop_idempotent envOk cfgTank ["A"] [] "B"
  exact ⟨h.1 (by decide), h.2.2⟩

/-- Counterexample to C9 as stated: in the config-reader variant, the
masking is conditional on Python truthiness, so the empty-string secret is
displayed as `""` rather than as the fixed mask. Two `PoolConfig`s that
differ only in the passphrase (`""` versus `"hunter2"`) therefore produce
different displayed text, and the display of the empty-passphrase config
does not contain the mask at all. -/
theorem C9_counterexample :
    crPoolConfigStr ⟨"p", [], some ""⟩ ≠ crPoolConfigStr ⟨"p", [], some "hunter2"⟩
    ∧ strIncludes (crPoolConfigStr ⟨"p", [], some ""⟩) "*****" = false
    ∧ strIncludes (crPoolConfigStr ⟨"p", [], some "hunter2"⟩) "*****" = true
    ∧ crAppConfigStr ⟨none, [("k", ⟨"p", [], some ""⟩)], none⟩
        ≠ crAppConfigStr ⟨none, [("k", ⟨"p", [], some "hunter2"⟩)], none⟩ := by
  refine ⟨by decide, by decide, by decide, by decide⟩

/-- C9 amended: for every non-empty secret value the default textual
conversions are a fixed mask independent of the secret's contents — the
monitor variant's `SecretStr` str/repr is the mask for every value
(including the empty string), and in the config-reader variant two
`PoolConfig`s (or two `AppConfig`s) whose passphrases are non-empty and
that differ only in the passphrase produce identical displayed/logged
text. Only a truthy (non-empty, non-None) passphrase is masked there. -/
theorem C9_secret_masking :
    (∀ s : SecretStr, s.display = "*****" ∧ s.displayRepr = "*****")
    ∧ (∀ (n : String) (ps : List String) (s1 s2 : String), s1 ≠ "" → s2 ≠ "" →
        crPoolConfigStr ⟨n, ps, some s1⟩ = crPoolConfigStr ⟨n, ps, some s2⟩)
    ∧ (∀ (lg : Option CRLoggingConfig) (em : Option CREmailConfig)
        (pre post : List (String × CRPoolConfig)) (k n : String) (ps : List String)
        (s1 s2 : String), s1 ≠ "" → s2 ≠ "" →
        crAppConfigStr ⟨lg, pre ++ [(k, ⟨n, ps, some s1⟩)] ++ post, em⟩ =
          crAppConfigStr ⟨lg, pre ++ [(k, ⟨n, ps, some s2⟩)] ++ post, em⟩) := by
  refine ⟨fun s => ⟨rfl, rfl⟩, ?_, ?_⟩
  · intro n ps s1 s2 h1 h2
    simp [crPoolConfigStr, crPoolBodyStr, optTruthy, h1, h2]
  · intro lg em pre post k n ps s1 s2 h1 h2
    have hentry : crPoolEntryStr 2 (k, ⟨n, ps, some s1⟩)
        = crPoolEntryStr 2 (k, ⟨n, ps, some s2⟩) := by
      simp [crPoolEntryStr, crPoolBodyStr, optTruthy, h1, h2]
    simp only [crAppConfigStr, crPoolsStr, List.map_append, List.map_cons, List.map_nil, hentry]

/-- Witness for the amended C9 on two concrete non-empty secrets. -/
theorem C9_secret_masking_witness :
    SecretStr.display ⟨"hunter2"⟩ = "*****"
    ∧ crPoolConfigStr ⟨"p", [], some "hunter2"⟩ = crPoolConfigStr ⟨"p", [], some "swordfish"⟩
    ∧ crAppConfigStr ⟨none, [("k", ⟨"p", [], some "hunter2"⟩)], none⟩
        = crAppConfigStr ⟨none, [("k", ⟨"p", [], some "swordfish"⟩)], none⟩ := by
  have h := C9_secret_masking
  refine ⟨(h.1 ⟨"hunter2"⟩).1, h.2.1 "p" [] "hunter2" "swordfish" (by decide) (by decide), ?_⟩
  have := h.2.2 none none [] [] "k" "p" [] "hunter2" "swordfish" (by decide) (by decide)
  simpa using this
